import Mathlib

/-!
Verification of the session-reconciliation auth context in
src/frontend/src/hooks/useAuth.tsx.

The file is a thin adapter around an identity platform and a document
store. We embed it shallowly:

* the document store is an association list from user identifiers to
  role documents; a point read is an association lookup and a point
  write an overwrite-or-insert;
* the component state is the pair of the nullable Session User and the
  Readiness Flag, exactly the two useState cells of the provider;
* external SDK calls are modelled by their outcome, supplied as an
  explicit parameter (an Except value for platform calls, an optional
  error for document-store calls), and the functions thread the state,
  the store and a log of performed effects explicitly, mirroring the
  source line by line: a thrown error aborts the rest of the body, so
  statements after the failure point simply do not contribute.
-/

namespace UseAuth

/-- The identity-platform user as delivered by the session stream:
an opaque unique identifier and a nullable email (the only fields the
source reads). -/
structure PlatformUser where
  uid : String
  email : Option String
deriving Repr, DecidableEq

/-- The ExtendedUser of the source: the platform user extended with an
optional role string (the field is optional in the interface, so a
published user with an unresolved role would have role none). -/
structure SessionUser where
  base : PlatformUser
  role : Option String
deriving Repr, DecidableEq

/-- The per-user document written to the "users" collection; a stored
document may also lack the role field (role none) or hold an empty
string (role some ""). -/
structure RoleDoc where
  uid : String
  email : Option String
  role : Option String
deriving Repr, DecidableEq

/-- The document store: an association list keyed by user identifier. -/
abbrev Store : Type := List (String × RoleDoc)

/-- The component state: the two useState cells of AuthProvider. -/
structure AuthState where
  user : Option SessionUser
  authReady : Bool
deriving Repr, DecidableEq

/-- Initial component state: user null, authReady false. -/
def initialState : AuthState := { user := none, authReady := false }

/-- Point read of the "users" collection (getDoc on doc(db, "users", uid)). -/
def lookupDoc : Store → String → Option RoleDoc
  | [], _ => none
  | (k, d) :: rest, uid => if k = uid then some d else lookupDoc rest uid

/-- Point write of the "users" collection (setDoc): overwrite the
document at the key, or insert it if absent. -/
def setDocFn : Store → String → RoleDoc → Store
  | [], uid, d => [(uid, d)]
  | (k, e) :: rest, uid, d =>
      if k = uid then (uid, d) :: rest else (k, e) :: setDocFn rest uid d

/-- Observable external effects. readDoc and writeDoc record a completed
document-store operation; platformCall records an issued identity
platform SDK call. -/
inductive Effect where
  | readDoc (uid : String)
  | writeDoc (uid : String) (d : RoleDoc)
  | platformCall (name : String)
deriving Repr, DecidableEq

/-- Whether an effect is a document write. -/
def Effect.isWrite : Effect → Bool
  | .writeDoc _ _ => true
  | _ => false

/-- Whether an effect touches the document store at all. -/
def Effect.isDocStoreOp : Effect → Bool
  | .readDoc _ => true
  | .writeDoc _ _ => true
  | .platformCall _ => false

/-- A JavaScript error value: either a FirebaseError (carrying a code
and a message) or a plain Error (message only). -/
inductive JsError where
  | firebaseError (code : String) (message : String)
  | jsError (message : String)
deriving Repr, DecidableEq

/-- The message field of a JavaScript error. -/
def JsError.message : JsError → String
  | .firebaseError _ m => m
  | .jsError m => m

/-- The test err instanceof FirebaseError && err.code = "auth/popup-blocked"
from loginWithGoogle. -/
def JsError.isPopupBlocked : JsError → Bool
  | .firebaseError code _ => code = "auth/popup-blocked"
  | .jsError _ => false

/-- How fetchUserData resolves the role of an existing document:
snap.data().role || "member", which for a string-or-missing role field
falls back to "member" exactly when the field is missing or the empty
string (both are falsy in JavaScript). -/
def dataRole (d : RoleDoc) : String :=
  match d.role with
  | some r => if r = "" then "member" else r
  | none => "member"

/-- fetchUserData of the source. Parameters getFail and setFail give the
outcome of the getDoc and setDoc calls (some e means the call throws e).
Returns the store, the component state, the log of completed
document-store operations, and the propagated error if any. A throw
aborts the function body, so later statements (including setUser) leave
no trace. -/
def fetchUserData (getFail setFail : Option String) (firebaseUser : PlatformUser)
    (store : Store) (st : AuthState) :
    Store × AuthState × List Effect × Option String :=
  match getFail with
  | some e => (store, st, [], some e)
  | none =>
    match lookupDoc store firebaseUser.uid with
    | some snap =>
        let roleData := dataRole snap
        (store,
         { st with user := some { base := firebaseUser, role := some roleData } },
         [.readDoc firebaseUser.uid], none)
    | none =>
        match setFail with
        | some e => (store, st, [.readDoc firebaseUser.uid], some e)
        | none =>
            let initialRole := "member"
            let newDoc : RoleDoc :=
              { uid := firebaseUser.uid, email := firebaseUser.email,
                role := some initialRole }
            (setDocFn store firebaseUser.uid newDoc,
             { st with user := some { base := firebaseUser, role := some initialRole } },
             [.readDoc firebaseUser.uid, .writeDoc firebaseUser.uid newDoc], none)

/-- The onAuthStateChanged callback of the source: a notification is
some firebaseUser or none (absence). On a present user it awaits
fetchUserData — a rejection there aborts the callback before
setAuthReady(true) runs — otherwise it sets the user to null; in the
non-throwing cases it then sets authReady to true. -/
def onAuthStateChangedCallback (getFail setFail : Option String)
    (notification : Option PlatformUser) (store : Store) (st : AuthState) :
    Store × AuthState × List Effect × Option String :=
  match notification with
  | some firebaseUser =>
      match fetchUserData getFail setFail firebaseUser store st with
      | (store', st', effs, none) =>
          (store', { st' with authReady := true }, effs, none)
      | (store', st', effs, some e) => (store', st', effs, some e)
  | none => (store, { st with user := none, authReady := true }, [], none)

/-- One failure-free notification step over (store, component state). -/
def step (s : Store × AuthState) (notification : Option PlatformUser) :
    Store × AuthState :=
  match onAuthStateChangedCallback none none notification s.1 s.2 with
  | (store', st', _, _) => (store', st')

/-- Processing a whole sequence of failure-free notifications from the
initial component state. -/
def runNotifications (ns : List (Option PlatformUser)) (store : Store) :
    Store × AuthState :=
  ns.foldl step (store, initialState)

/-- The successive values of the Readiness Flag along a notification
sequence: the value before any notification, then the value after each
one. -/
def readyTrace (ns : List (Option PlatformUser)) (store : Store) : List Bool :=
  (ns.scanl step (store, initialState)).map (fun s => s.2.authReady)

/-- login of the source: awaits signInWithEmailAndPassword (its outcome
is the parameter), logs and rethrows any error unchanged. It never
touches the two state cells or the document store. -/
def login (email password : String) (signInResult : Except JsError Unit)
    (st : AuthState) (store : Store) :
    AuthState × Store × List Effect × Except JsError Unit :=
  match email, password, signInResult with
  | _, _, .ok _ =>
      (st, store, [.platformCall "signInWithEmailAndPassword"], .ok ())
  | _, _, .error e =>
      (st, store, [.platformCall "signInWithEmailAndPassword"], .error e)

/-- signup of the source: awaits createUserWithEmailAndPassword (outcome
given as createResult, carrying the created platform user on success),
then immediately writes the Role Record for the new identity with the
email argument and role "member"; any error from either call is logged
and rethrown unchanged, and a setDoc failure (setFail) aborts before the
write lands. It never touches the two state cells. -/
def signup (email password : String) (createResult : Except JsError PlatformUser)
    (setFail : Option JsError) (st : AuthState) (store : Store) :
    AuthState × Store × List Effect × Except JsError Unit :=
  match password, createResult with
  | _, .error e =>
      (st, store, [.platformCall "createUserWithEmailAndPassword"], .error e)
  | _, .ok u =>
      match setFail with
      | some e =>
          (st, store, [.platformCall "createUserWithEmailAndPassword"], .error e)
      | none =>
          let d : RoleDoc := { uid := u.uid, email := some email, role := some "member" }
          (st, setDocFn store u.uid d,
           [.platformCall "createUserWithEmailAndPassword", .writeDoc u.uid d],
           .ok ())

/-- The user-facing message synthesized when the sign-in pop-up was
blocked. -/
def popupBlockedUserMessage : String :=
  "Google login failed: Your browser blocked the sign-in pop-up. Please allow pop-ups for this site or try again."

/-- loginWithGoogle of the source: awaits signInWithPopup (outcome given
as popupResult); on the FirebaseError with code "auth/popup-blocked" it
throws a freshly constructed Error with popupBlockedUserMessage, on any
other error it rethrows the error unchanged. It never touches the two
state cells or the document store. -/
def loginWithGoogle (popupResult : Except JsError Unit)
    (st : AuthState) (store : Store) :
    AuthState × Store × List Effect × Except JsError Unit :=
  match popupResult with
  | .ok _ => (st, store, [.platformCall "signInWithPopup"], .ok ())
  | .error err =>
      if err.isPopupBlocked then
        (st, store, [.platformCall "signInWithPopup"],
         .error (.jsError popupBlockedUserMessage))
      else
        (st, store, [.platformCall "signInWithPopup"], .error err)

/-- logout of the source: awaits signOut (outcome given), logs and
rethrows any error unchanged. It never touches the two state cells or
the document store. -/
def logout (signOutResult : Except JsError Unit)
    (st : AuthState) (store : Store) :
    AuthState × Store × List Effect × Except JsError Unit :=
  match signOutResult with
  | .ok _ => (st, store, [.platformCall "signOut"], .ok ())
  | .error e => (st, store, [.platformCall "signOut"], .error e)

/-- The capability bundle exposed through the context. Each action is
modelled as a function from its source arguments and the pair
(component state, store) to the new state, the new store, the effects
performed, and the action's outcome. -/
structure AuthContextType where
  user : Option SessionUser
  authReady : Bool
  loginAction :
    String → String → AuthState → Store →
      AuthState × Store × List Effect × Except JsError Unit
  signupAction :
    String → String → AuthState → Store →
      AuthState × Store × List Effect × Except JsError Unit
  loginWithGoogleAction :
    AuthState → Store → AuthState × Store × List Effect × Except JsError Unit
  logoutAction :
    AuthState → Store → AuthState × Store × List Effect × Except JsError Unit

/-- The default value passed to createContext: user null, authReady
false, and four async no-op actions that resolve with no effect. -/
def defaultAuthContext : AuthContextType where
  user := none
  authReady := false
  loginAction := fun _ _ st store => (st, store, [], .ok ())
  signupAction := fun _ _ st store => (st, store, [], .ok ())
  loginWithGoogleAction := fun st store => (st, store, [], .ok ())
  logoutAction := fun st store => (st, store, [], .ok ())

/-- useAuth() evaluated in a component with no enclosing
AuthContext.Provider: useContext then returns the default value given to
createContext. -/
def useAuthOutsideProvider : AuthContextType := defaultAuthContext

/-- Character-list version: does the first list start with the second? -/
def startsWithChars : List Char → List Char → Bool
  | _, [] => true
  | [], _ :: _ => false
  | a :: as, b :: bs => a = b && startsWithChars as bs

/-- Does the second character list occur contiguously in the first? -/
def hasSubChars : List Char → List Char → Bool
  | [], bs => startsWithChars [] bs
  | a :: as, bs => startsWithChars (a :: as) bs || hasSubChars as bs

/-- Substring test on strings. -/
def strHasSub (s sub : String) : Bool := hasSubChars s.data sub.data

/-! ## Helper lemmas -/

/-- After a point write, a point read of the same key returns the
written document. -/
theorem lookupDoc_setDocFn_self (store : Store) (uid : String) (d : RoleDoc) :
    lookupDoc (setDocFn store uid d) uid = some d := by
  induction store with
  | nil => simp [setDocFn, lookupDoc]
  | cons kv rest ih =>
      obtain ⟨k, e⟩ := kv
      by_cases h : k = uid
      · simp [setDocFn, lookupDoc, h]
      · simp [setDocFn, lookupDoc, h, ih]

/-- Every failure-free notification step ends with the Readiness Flag
set. -/
theorem step_authReady (s : Store × AuthState) (n : Option PlatformUser) :
    (step s n).2.authReady = true := by
  cases n with
  | none => simp [step, onAuthStateChangedCallback]
  | some fu =>
      cases h : lookupDoc s.1 fu.uid with
      | none => simp [step, onAuthStateChangedCallback, fetchUserData, h]
      | some d => simp [step, onAuthStateChangedCallback, fetchUserData, h]

/-- The Readiness Flag values along a scan of failure-free steps: the
starting value, then true after every notification. -/
theorem scanl_step_ready (ns : List (Option PlatformUser)) (s : Store × AuthState) :
    (ns.scanl step s).map (fun x => x.2.authReady)
      = s.2.authReady :: List.replicate ns.length true := by
  induction ns generalizing s with
  | nil => simp [List.scanl]
  | cons n rest ih =>
      simp only [List.scanl, List.map_cons, ih (step s n), step_authReady,
        List.length_cons, List.replicate_succ]

/-- A failure-free notification step always leaves either a null user or
a user whose role is resolved. -/
theorem step_user_role_resolved (s : Store × AuthState) (n : Option PlatformUser)
    (u : SessionUser) : (step s n).2.user = some u → ∃ r, u.role = some r := by
  cases n with
  | none => intro h; simp [step, onAuthStateChangedCallback] at h
  | some fu =>
      cases h : lookupDoc s.1 fu.uid with
      | none =>
          intro hu
          simp [step, onAuthStateChangedCallback, fetchUserData, h] at hu
          exact ⟨"member", by simp [← hu]⟩
      | some d =>
          intro hu
          simp [step, onAuthStateChangedCallback, fetchUserData, h] at hu
          exact ⟨dataRole d, by simp [← hu]⟩

/-- Folding failure-free steps preserves role-resolvedness of the
published user. -/
theorem foldl_step_role_resolved (ns : List (Option PlatformUser))
    (s : Store × AuthState)
    (hs : ∀ u, s.2.user = some u → ∃ r, u.role = some r) :
    ∀ u, (ns.foldl step s).2.user = some u → ∃ r, u.role = some r := by
  induction ns generalizing s with
  | nil => exact hs
  | cons n rest ih =>
      intro u h
      exact ih (step s n) (step_user_role_resolved s n) u h

/-! ## Claim theorems -/

/-- C1: for a session-change notification reporting a present user with
no existing Role Record, role reconciliation performs exactly one
document write, keyed by the user's uid and carrying
(uid, email, role "member"); afterwards the record is in the store and
the published Session User has role "member", with the Readiness Flag
set. -/
theorem lazy_create_role_record (fu : PlatformUser) (store : Store) (st : AuthState)
    (h : lookupDoc store fu.uid = none) :
    (onAuthStateChangedCallback none none (some fu) store st).2.2.1.filter Effect.isWrite
        = [Effect.writeDoc fu.uid { uid := fu.uid, email := fu.email, role := some "member" }]
    ∧ lookupDoc (onAuthStateChangedCallback none none (some fu) store st).1 fu.uid
        = some { uid := fu.uid, email := fu.email, role := some "member" }
    ∧ (onAuthStateChangedCallback none none (some fu) store st).2.1
        = { user := some { base := fu, role := some "member" }, authReady := true } := by
  refine ⟨?_, ?_, ?_⟩ <;>
    simp [onAuthStateChangedCallback, fetchUserData, h, Effect.isWrite,
      lookupDoc_setDocFn_self]

/-- C1 witness: a concrete present user over an empty store. -/
theorem lazy_create_role_record_witness :
    lookupDoc [] "u1" = none
    ∧ (onAuthStateChangedCallback none none
          (some { uid := "u1", email := some "a@x.com" }) [] initialState).2.1
        = { user := some { base := { uid := "u1", email := some "a@x.com" },
                           role := some "member" },
            authReady := true } := by
  exact ⟨rfl,
    (lazy_create_role_record { uid := "u1", email := some "a@x.com" } [] initialState rfl).2.2⟩

/-- C2: for a session-change notification reporting a present user whose
Role Record exists, the store is untouched (a single read, no write) and
the published Session User carries the resolved role: the record's role
field when that field is a non-empty string, and the default "member"
when the field is missing or empty — and the resolved role is never the
empty string. -/
theorem existing_record_role_resolution (fu : PlatformUser) (store : Store)
    (st : AuthState) (d : RoleDoc) (h : lookupDoc store fu.uid = some d) :
    onAuthStateChangedCallback none none (some fu) store st
        = (store,
           { user := some { base := fu, role := some (dataRole d) }, authReady := true },
           [Effect.readDoc fu.uid], none)
    ∧ (∀ r, d.role = some r → r ≠ "" → dataRole d = r)
    ∧ ((d.role = none ∨ d.role = some "") → dataRole d = "member")
    ∧ dataRole d ≠ "" := by
  refine ⟨by simp [onAuthStateChangedCallback, fetchUserData, h], ?_, ?_, ?_⟩
  · intro r hr hne
    simp [dataRole, hr, hne]
  · rintro (hr | hr) <;> simp [dataRole, hr]
  · cases hr : d.role with
    | none => simp [dataRole, hr]
    | some r =>
        by_cases he : r = "" <;> simp [dataRole, hr, he]

/-- C2 witness: a concrete store holding an "admin" record publishes
role "admin". -/
theorem existing_record_role_resolution_witness :
    lookupDoc [("u1", { uid := "u1", email := some "a@x.com", role := some "admin" })] "u1"
        = some { uid := "u1", email := some "a@x.com", role := some "admin" }
    ∧ onAuthStateChangedCallback none none
          (some { uid := "u1", email := some "a@x.com" })
          [("u1", { uid := "u1", email := some "a@x.com", role := some "admin" })]
          initialState
        = ([("u1", { uid := "u1", email := some "a@x.com", role := some "admin" })],
           { user := some { base := { uid := "u1", email := some "a@x.com" },
                            role := some "admin" },
             authReady := true },
           [Effect.readDoc "u1"], none) := by
  exact ⟨rfl,
    (existing_record_role_resolution { uid := "u1", email := some "a@x.com" }
      [("u1", { uid := "u1", email := some "a@x.com", role := some "admin" })]
      initialState
      { uid := "u1", email := some "a@x.com", role := some "admin" } rfl).1⟩

/-- C3: a session-change notification reporting absence sets the Session
User to null and the Readiness Flag to true, with no document-store
operation at all (empty effect list) and no error. -/
theorem absent_notification_clears_user (store : Store) (st : AuthState) :
    onAuthStateChangedCallback none none none store st
        = (store, { user := none, authReady := true }, [], none) := by
  rfl

/-- C4: a successful signup writes, immediately and with no
session-change notification involved, the Role Record
(uid, email, role "member") for the created identity; the record is then
readable from the store, and it is exactly the record the lazy-create
path of role reconciliation would write for the same identity. -/
theorem signup_success_writes_role_record (email password : String)
    (u : PlatformUser) (st st₂ : AuthState) (store : Store) :
    signup email password (.ok u) none st store
        = (st, setDocFn store u.uid { uid := u.uid, email := some email, role := some "member" },
           [Effect.platformCall "createUserWithEmailAndPassword",
            Effect.writeDoc u.uid { uid := u.uid, email := some email, role := some "member" }],
           .ok ())
    ∧ lookupDoc (signup email password (.ok u) none st store).2.1 u.uid
        = some { uid := u.uid, email := some email, role := some "member" }
    ∧ (fetchUserData none none { uid := u.uid, email := some email } [] st₂).2.2.1.filter
          Effect.isWrite
        = [Effect.writeDoc u.uid { uid := u.uid, email := some email, role := some "member" }] := by
  refine ⟨rfl, ?_, ?_⟩
  · simp [signup, lookupDoc_setDocFn_self]
  · simp [fetchUserData, lookupDoc, Effect.isWrite]

/-- C5: loginWithGoogle succeeds exactly when the platform pop-up
sign-in succeeds; on the pop-up-blocked FirebaseError it raises a fresh
plain Error whose message tells the user to allow pop-ups or try again
(distinct from the raw platform error), and on every other error it
re-raises the platform error unchanged. -/
theorem loginWithGoogle_error_classification (r : Except JsError Unit)
    (st : AuthState) (store : Store) :
    ((loginWithGoogle r st store).2.2.2 = .ok () ↔ r = .ok ())
    ∧ (∀ msg, r = .error (.firebaseError "auth/popup-blocked" msg) →
        (loginWithGoogle r st store).2.2.2 = .error (.jsError popupBlockedUserMessage)
        ∧ JsError.jsError popupBlockedUserMessage
            ≠ JsError.firebaseError "auth/popup-blocked" msg
        ∧ strHasSub popupBlockedUserMessage "allow pop-ups" = true
        ∧ strHasSub popupBlockedUserMessage "try again" = true)
    ∧ (∀ e, r = .error e → e.isPopupBlocked = false →
        (loginWithGoogle r st store).2.2.2 = .error e) := by
  refine ⟨?_, ?_, ?_⟩
  · cases r with
    | ok a => simp [loginWithGoogle]
    | error e =>
        by_cases h : e.isPopupBlocked <;> simp [loginWithGoogle, h]
  · intro msg hr
    subst hr
    refine ⟨by simp [loginWithGoogle, JsError.isPopupBlocked], by simp, ?_, ?_⟩
    · decide
    · decide
  · intro e hr hnb
    subst hr
    simp [loginWithGoogle, hnb]

/-- C5 witness: the pop-up-blocked error is translated, while another
error is re-raised unchanged. -/
theorem loginWithGoogle_error_classification_witness :
    ((loginWithGoogle (.error (.firebaseError "auth/popup-blocked" "raw"))
        initialState []).2.2.2
      = .error (.jsError popupBlockedUserMessage))
    ∧ ((loginWithGoogle (.error (.jsError "network down")) initialState []).2.2.2
      = .error (.jsError "network down")) := by
  constructor
  · exact ((loginWithGoogle_error_classification
      (.error (.firebaseError "auth/popup-blocked" "raw")) initialState []).2.1
      "raw" rfl).1
  · exact (loginWithGoogle_error_classification
      (.error (.jsError "network down")) initialState []).2.2
      (.jsError "network down") rfl (by decide)

/-- C6: the Readiness Flag trace over any notification sequence in one
component lifetime is false followed by only true: it starts false,
rises to true at the first fully processed notification (present user or
absence alike), and never reverts afterwards — exactly one false-to-true
transition whenever at least one notification arrives. -/
theorem readyFlag_rises_exactly_once (ns : List (Option PlatformUser)) (store : Store) :
    readyTrace ns store = false :: List.replicate ns.length true := by
  simp [readyTrace, scanl_step_ready, initialState]

/-- C7: in every state reachable by processing session-change
notifications from the initial state, a non-null published Session User
has a resolved role. -/
theorem published_user_role_resolved (ns : List (Option PlatformUser))
    (store : Store) (u : SessionUser)
    (h : (runNotifications ns store).2.user = some u) : ∃ r, u.role = some r := by
  refine foldl_step_role_resolved ns (store, initialState) ?_ u h
  intro v hv
  simp [initialState] at hv

/-- C7 witness: a concrete one-notification run publishes a user whose
role is resolved. -/
theorem published_user_role_resolved_witness :
    (runNotifications [some { uid := "u1", email := none }] []).2.user
        = some { base := { uid := "u1", email := none }, role := some "member" }
    ∧ ∃ r, ({ base := { uid := "u1", email := none }, role := some "member" }
              : SessionUser).role = some r := by
  exact ⟨rfl, published_user_role_resolved [some { uid := "u1", email := none }] []
    { base := { uid := "u1", email := none }, role := some "member" } rfl⟩

/-- C8: none of the four actions changes the component state, on success
or failure: login, signup, loginWithGoogle and logout all return the
Session User and Readiness Flag they were given. -/
theorem actions_do_not_touch_state (email password : String)
    (signInResult : Except JsError Unit) (createResult : Except JsError PlatformUser)
    (setFail : Option JsError) (popupResult signOutResult : Except JsError Unit)
    (st : AuthState) (store : Store) :
    (login email password signInResult st store).1 = st
    ∧ (signup email password createResult setFail st store).1 = st
    ∧ (loginWithGoogle popupResult st store).1 = st
    ∧ (logout signOutResult st store).1 = st := by
  refine ⟨?_, ?_, ?_, ?_⟩
  · cases signInResult <;> rfl
  · cases createResult with
    | error e => rfl
    | ok u => cases setFail <;> rfl
  · cases popupResult with
    | ok a => rfl
    | error e => by_cases h : e.isPopupBlocked <;> simp [loginWithGoogle, h]
  · cases signOutResult <;> rfl

/-- C9: when the document-store read fails during role reconciliation,
or the lazy-create write fails, the error propagates unchanged out of
the notification handler and the component state is untouched: the
Session User keeps its previous value and the Readiness Flag is not set.
-/
theorem docstore_error_leaves_state_unchanged (fu : PlatformUser)
    (store : Store) (st : AuthState) (e : String) :
    (∀ setFail, onAuthStateChangedCallback (some e) setFail (some fu) store st
        = (store, st, [], some e))
    ∧ (lookupDoc store fu.uid = none →
        onAuthStateChangedCallback none (some e) (some fu) store st
          = (store, st, [Effect.readDoc fu.uid], some e)) := by
  constructor
  · intro setFail
    rfl
  · intro h
    simp [onAuthStateChangedCallback, fetchUserData, h]

/-- C9 witness: a concrete failing read and a concrete failing write
both leave the initial state and surface the error. -/
theorem docstore_error_leaves_state_unchanged_witness :
    (onAuthStateChangedCallback (some "unavailable") none
        (some { uid := "u1", email := none }) [] initialState
      = ([], initialState, [], some "unavailable"))
    ∧ (lookupDoc [] "u1" = none)
    ∧ (onAuthStateChangedCallback none (some "unavailable")
        (some { uid := "u1", email := none }) [] initialState
      = ([], initialState, [Effect.readDoc "u1"], some "unavailable")) := by
  refine ⟨?_, rfl, ?_⟩
  · exact (docstore_error_leaves_state_unchanged { uid := "u1", email := none }
      [] initialState "unavailable").1 none
  · exact (docstore_error_leaves_state_unchanged { uid := "u1", email := none }
      [] initialState "unavailable").2 rfl

/-- C10: useAuth() outside any AuthProvider yields the createContext
default bundle: null user, authReady false, and four actions that
resolve successfully with no platform call, no document-store access and
no state change. -/
theorem useAuth_outside_provider_defaults :
    useAuthOutsideProvider.user = none
    ∧ useAuthOutsideProvider.authReady = false
    ∧ (∀ email password st store,
        useAuthOutsideProvider.loginAction email password st store
          = (st, store, [], .ok ()))
    ∧ (∀ email password st store,
        useAuthOutsideProvider.signupAction email password st store
          = (st, store, [], .ok ()))
    ∧ (∀ st store,
        useAuthOutsideProvider.loginWithGoogleAction st store = (st, store, [], .ok ()))
    ∧ (∀ st store,
        useAuthOutsideProvider.logoutAction st store = (st, store, [], .ok ())) := by
  exact ⟨rfl, rfl, fun _ _ _ _ => rfl, fun _ _ _ _ => rfl,
    fun _ _ => rfl, fun _ _ => rfl⟩

end UseAuth
